import Mathlib

/-!
Shallow embedding of the connection-pool core of the hrms-odoo-connector
repository: `src/infrastructure/odoo/OdooConnectionPool.js` and the retry
logic of `src/infrastructure/odoo/OdooClient.js`.

Connections are identified by opaque numeric ids.  The JavaScript runtime is
single-threaded and every pool method mutates the pool only between
suspension points, so each method is embedded as a pure function from a
`PoolState` to a result together with the successor `PoolState`.  Timer
callbacks (`setTimeout` bodies) are embedded as separate step functions that
can be fired on any later state.

JavaScript function objects are compared by identity (`Array.prototype.indexOf`
uses strict equality).  The wait queue of the pool stores, for each waiting
acquisition, the anonymous wrapper closure pushed by `_waitForConnection`,
which is a distinct object from the `resolve` function of the promise it
captures.  The inductive type `JsFun` records exactly this object identity:
`JsFun.wrapper t` is the wrapper closure of ticket `t` and `JsFun.resolveFn t`
is the raw promise resolver of ticket `t`; they are distinct values, as the
two JavaScript objects are.
-/

namespace OdooPool

/-- Identity of a JavaScript function object that can appear in
`connectionQueue`: the wrapper closure pushed by `_waitForConnection`, or the
raw promise resolver captured by that wrapper (which the timeout handler
searches the queue for). -/
inductive JsFun where
  | wrapper (t : Nat)
  | resolveFn (t : Nat)
deriving DecidableEq, Repr

/-- State of an `OdooConnectionPool` instance: pool configuration, the three
connection-tracking containers (`availableConnections` array,
`activeConnections` Set, `connectionQueue` array) and the `stats` counters.
`nextId` is the supply of fresh connection identities. -/
structure PoolState where
  minConnections : Nat
  maxConnections : Nat
  available : List Nat
  active : List Nat
  queue : List JsFun
  created : Nat
  acquired : Nat
  released : Nat
  destroyed : Nat
  queuedRequests : Nat
  nextId : Nat
deriving DecidableEq, Repr

/-- `Set.prototype.add`: JavaScript sets are insertion ordered and ignore an
add of an element already present. -/
def setAdd (l : List Nat) (c : Nat) : List Nat :=
  if c ∈ l then l else l ++ [c]

/-- `Set.prototype.delete`: removes the element if present (a JavaScript Set
holds no duplicates, so erasing the first occurrence is exact). -/
def setDelete (l : List Nat) (c : Nat) : List Nat :=
  l.erase c

/-- Outcome of `acquire()`: a connection popped from `availableConnections`, a
freshly created connection, a request parked on the wait queue (ticket `t`),
or a propagated connection-creation failure. -/
inductive AcquireOutcome where
  | reused (c : Nat)
  | fresh (c : Nat)
  | queued (t : Nat)
  | createFailed
deriving DecidableEq, Repr

/-- Whether the outcome is the queued path. -/
def AcquireOutcome.isQueued : AcquireOutcome → Bool
  | .queued _ => true
  | _ => false

/-- `_createConnection()`: on success (`connectOk`) a fresh client is
connected, `stats.created` is incremented and the new connection is pushed
onto `availableConnections`; on failure the error is rethrown wrapped (state
left with only the flags the code had already set, i.e. unchanged, since
`created++` and the push happen after the awaited `connect()`). -/
def _createConnection (s : PoolState) (connectOk : Bool) : Option Nat × PoolState :=
  if connectOk then
    let c := s.nextId
    (some c, { s with nextId := s.nextId + 1
                    , created := s.created + 1
                    , available := s.available ++ [c] })
  else
    (none, s)

/-- `acquire()`: increments `stats.acquired`, then (a) shifts an available
connection and adds it to `activeConnections`, else (b) if
`activeConnections.size < maxConnections` creates a connection via
`_createConnection` and adds it to `activeConnections`, else (c) increments
`stats.queuedRequests` and pushes a wrapper ticket onto `connectionQueue`
(the body of `_waitForConnection`).  `t` is the identity of the ticket used
on path (c); `connectOk` is the outcome of the awaited `connect()` on path
(b). -/
def acquire (s : PoolState) (connectOk : Bool) (t : Nat) : AcquireOutcome × PoolState :=
  let s1 := { s with acquired := s.acquired + 1 }
  match s1.available with
  | c :: rest =>
      (.reused c, { s1 with available := rest, active := setAdd s1.active c })
  | [] =>
      if s1.active.length < s1.maxConnections then
        match _createConnection s1 connectOk with
        | (some c, s2) => (.fresh c, { s2 with active := setAdd s2.active c })
        | (none, s2) => (.createFailed, s2)
      else
        (.queued t, { s1 with queuedRequests := s1.queuedRequests + 1
                            , queue := s1.queue ++ [JsFun.wrapper t] })

/-- Result signalled by `release()`: the warning path for an untracked
connection, a hand-off to the shifted queue entry, or a return to
`availableConnections` (recording whether `_setIdleTimeout` armed an
idle-eviction timer, which it does exactly when
`availableConnections.length > minConnections` at scheduling time). -/
inductive ReleaseSignal where
  | unknownConn
  | handed (f : JsFun) (c : Nat)
  | pooled (timerScheduled : Bool)
deriving DecidableEq, Repr

/-- `release(connection)`: increments `stats.released`; warns and returns if
the connection is not in `activeConnections`; otherwise deletes it from
`activeConnections` and either hands it to the shifted head of
`connectionQueue` (re-adding it to `activeConnections`) or pushes it onto
`availableConnections` and runs `_setIdleTimeout`. -/
def release (s : PoolState) (c : Nat) : ReleaseSignal × PoolState :=
  let s1 := { s with released := s.released + 1 }
  if c ∈ s1.active then
    let s2 := { s1 with active := setDelete s1.active c }
    match s2.queue with
    | f :: rest =>
        (.handed f c, { s2 with queue := rest, active := setAdd s2.active c })
    | [] =>
        let s3 := { s2 with available := s2.available ++ [c] }
        (.pooled (decide (s3.minConnections < s3.available.length)), s3)
  else
    (.unknownConn, s1)

/-- Body of the `setTimeout` armed by `_setIdleTimeout(connection)`, fired on
a later state: if the connection is still in `availableConnections`
(`indexOf > -1`) it is spliced out, disconnected, and `stats.destroyed` is
incremented; returns whether the connection was evicted.  No size check is
performed here. -/
def idleTimerFire (s : PoolState) (c : Nat) : Bool × PoolState :=
  if c ∈ s.available then
    (true, { s with available := s.available.erase c, destroyed := s.destroyed + 1 })
  else
    (false, s)

/-- Observable result of the wait-queue timeout handler: whether any entry
was spliced out of `connectionQueue`, and the message of the
`OdooConnectionError` the promise is rejected with. -/
structure TimeoutResult where
  removedFromQueue : Bool
  rejectMessage : String
deriving DecidableEq, Repr

/-- Body of the `setTimeout` armed by `_waitForConnection` for ticket `t`,
fired on a later state.  The handler computes
`connectionQueue.indexOf(resolve)` — searching for the raw promise resolver
`JsFun.resolveFn t` — and splices the entry out only when found; it then
rejects with `OdooConnectionError("Timeout waiting for available
connection")`.  The queue, however, holds the wrapper closure
`JsFun.wrapper t`, never the raw resolver. -/
def waitTimeoutFire (s : PoolState) (t : Nat) : TimeoutResult × PoolState :=
  if JsFun.resolveFn t ∈ s.queue then
    (⟨true, "Timeout waiting for available connection"⟩,
     { s with queue := s.queue.erase (JsFun.resolveFn t) })
  else
    (⟨false, "Timeout waiting for available connection"⟩, s)

/-- Outcome of the caller-supplied function passed to `withConnection`:
normal return of a value or a thrown exception (both opaque numerics). -/
inductive FnOutcome where
  | ok (v : Nat)
  | err (e : Nat)
deriving DecidableEq, Repr

/-- Result of `withConnection(fn)`: the value or exception of `fn` after the
`finally` release, a propagated acquisition failure (fn never ran), or a
suspension on the wait queue. -/
inductive WithResult where
  | ok (v : Nat)
  | err (e : Nat)
  | acquireFailed
  | pending (t : Nat)
deriving DecidableEq, Repr

/-- `withConnection(fn)`: acquire, run `fn` on the connection, release in a
`finally` block, then propagate the value or exception of `fn`.  When the
acquisition itself suspends on the queue or fails, `fn` is never invoked and
nothing is released. -/
def withConnection (s : PoolState) (connectOk : Bool) (t : Nat)
    (fn : Nat → FnOutcome) : WithResult × PoolState :=
  match acquire s connectOk t with
  | (.reused c, s1) =>
      let r := fn c
      let s2 := (release s1 c).2
      (match r with | .ok v => .ok v | .err e => .err e, s2)
  | (.fresh c, s1) =>
      let r := fn c
      let s2 := (release s1 c).2
      (match r with | .ok v => .ok v | .err e => .err e, s2)
  | (.queued t1, s1) => (.pending t1, s1)
  | (.createFailed, s1) => (.acquireFailed, s1)

/-- The message a queue entry rejects (or resolves) with when invoked with a
null connection, as `destroy()` does: the wrapper closure rejects with
`OdooConnectionError("Connection pool is closing")`. -/
def invokeWithNull : JsFun → String
  | .wrapper _ => "Connection pool is closing"
  | .resolveFn _ => ""

/-- Observable effects of `destroy()`: every queue entry invoked with null,
every tracked connection on which `disconnect()` was attempted, and those
whose disconnect rejected (logged, teardown continues). -/
structure DestroyReport where
  invokedEntries : List JsFun
  disconnectAttempts : List Nat
  failedDisconnects : List Nat
deriving DecidableEq, Repr

/-- `destroy()`: invokes every `connectionQueue` entry with null and clears
the queue; awaits `disconnect()` on every connection of
`availableConnections` followed by `activeConnections` (Set iteration is
insertion order), incrementing `stats.destroyed` per successful disconnect
and merely logging a failed one; finally clears both containers.  `dis c`
is whether the disconnect of connection `c` succeeds. -/
def destroy (s : PoolState) (dis : Nat → Bool) : DestroyReport × PoolState :=
  let conns := s.available ++ s.active
  (⟨s.queue, conns, conns.filter (fun c => !(dis c))⟩,
   { s with queue := []
          , available := []
          , active := []
          , destroyed := s.destroyed + conns.countP (fun c => dis c) })

/-- Result of the static `getInstance(config)` accessor: the instance
returned, or the synchronously thrown `Error` message. -/
def getInstance (inst : Option Nat) (config : Option Nat) (freshInst : Nat) :
    Except String Nat × Option Nat :=
  match inst with
  | some p => (.ok p, some p)
  | none =>
      match config with
      | none =>
          (.error "Config is required for first initialization of OdooConnectionPool",
           none)
      | some _ => (.ok freshInst, some freshInst)

/-- One authentication attempt of the session client: the user id handed to
the callback on success, or the underlying error (an opaque numeric). -/
inductive AuthStep where
  | success (uid : Nat)
  | failure (err : Nat)
deriving DecidableEq, Repr

/-- Result of `_authenticateWithRetry`: the returned user id, or the
underlying error wrapped in the final `OdooConnectionError` (none when the
loop never ran and `lastError` is undefined). -/
inductive AuthResult where
  | ok (uid : Nat)
  | failed (lastErr : Option Nat)
deriving DecidableEq, Repr

/-- Observable trace of `_authenticateWithRetry`: its result, the number of
attempts made, and the list of sleep durations awaited between attempts, in
order. -/
structure AuthTrace where
  result : AuthResult
  attempts : Nat
  sleeps : List Nat
deriving DecidableEq, Repr

/-- The retry loop of `_authenticateWithRetry` starting at a given 1-indexed
attempt: on success return the uid; on failure remember the error and, if
more attempts remain, sleep `delayMs * backoffMultiplier ^ (attempt - 1)` and
continue, else throw wrapping the last error. -/
def authGo (delayMs backoff : Nat) (auth : Nat → AuthStep) (maxAttempts : Nat)
    (attempt : Nat) : AuthTrace :=
  match auth attempt with
  | .success uid => ⟨.ok uid, 1, []⟩
  | .failure e =>
      if h : attempt < maxAttempts then
        let d := delayMs * backoff ^ (attempt - 1)
        let rest := authGo delayMs backoff auth maxAttempts (attempt + 1)
        ⟨rest.result, rest.attempts + 1, d :: rest.sleeps⟩
      else
        ⟨.failed (some e), 1, []⟩
termination_by maxAttempts - attempt

/-- `_authenticateWithRetry()`: runs the attempt loop from attempt 1 to
`maxAttempts`; with `maxAttempts = 0` the loop body never runs and the
function throws wrapping the undefined `lastError`. -/
def authenticateWithRetry (maxAttempts delayMs backoff : Nat)
    (auth : Nat → AuthStep) : AuthTrace :=
  if 1 ≤ maxAttempts then
    authGo delayMs backoff auth maxAttempts 1
  else
    ⟨.failed none, 0, []⟩

/-- Sum of tracked connections as reported by `getStats().total`. -/
def PoolState.total (s : PoolState) : Nat :=
  s.available.length + s.active.length

/-- A convenient literal pool state with empty containers and zeroed
counters. -/
def emptyPool (minC maxC : Nat) : PoolState :=
  { minConnections := minC
  , maxConnections := maxC
  , available := []
  , active := []
  , queue := []
  , created := 0
  , acquired := 0
  , released := 0
  , destroyed := 0
  , queuedRequests := 0
  , nextId := 0 }

/-- A pool of capacity one with the floor at zero, exercising the creation
path of `acquire`. -/
def tinyPool : PoolState := emptyPool 0 1

/-- A pool whose wait queue holds the wrapper ticket of waiter 5, as left by
a queued `acquire()`. -/
def queuedPool : PoolState := { emptyPool 0 1 with queue := [JsFun.wrapper 5] }

/-- Start of the idle-eviction trace: minConnections 1, maxConnections 2,
connections 10 and 11 both checked out. -/
def evictTrace0 : PoolState := { emptyPool 1 2 with active := [10, 11] }

/-- Connection 10 released: available [10], size 1 is not above the floor,
so no idle timer is armed. -/
def evictTrace1 : PoolState := (release evictTrace0 10).2

/-- Connection 11 released: available [10, 11], size 2 exceeds the floor,
so an idle timer for connection 11 is armed. -/
def evictTrace2 : PoolState := (release evictTrace1 11).2

/-- Both connections re-acquired and 11 released again while the armed
timer of connection 11 is still pending: available [11] of size 1. -/
def evictTrace3 : PoolState :=
  (release (acquire (acquire evictTrace2 true 0).2 true 0).2 11).2

/-- A pool serving the reuse path: connection 3 idle in the available list,
nothing active. -/
def reusePool : PoolState := { emptyPool 0 1 with available := [3] }

/-- A pool with connection 4 checked out and waiter 8 queued, about to have
its connection handed over by a release. -/
def handoffPool : PoolState :=
  { emptyPool 0 1 with active := [4], queue := [JsFun.wrapper 8] }

/-- An authentication behavior that fails on the first two attempts (with
error codes 1 and 2) and succeeds on the third with user id 42. -/
def authTwiceThenOk : Nat → AuthStep :=
  fun k => if k ≤ 2 then AuthStep.failure k else AuthStep.success 42

/-- C1: the claimed invariant fails on the code.  On the creation path,
`_createConnection` pushes the new connection onto `availableConnections`
and `acquire` then also adds it to `activeConnections` without removing it
from the available list, so after a single `acquire()` on an empty pool of
`maxConnections = 1` the new connection is a member of both containers and
`available.size + active.size = 2 > maxConnections`. -/
theorem C1_acquire_double_membership :
    (acquire tinyPool true 0).1 = AcquireOutcome.fresh 0 ∧
    (acquire tinyPool true 0).2.available = [0] ∧
    (acquire tinyPool true 0).2.active = [0] ∧
    0 ∈ (acquire tinyPool true 0).2.available ∧
    0 ∈ (acquire tinyPool true 0).2.active ∧
    (acquire tinyPool true 0).2.total = 2 ∧
    tinyPool.maxConnections = 1 := by
  decide

/-- C2: when the wait-queue timeout fires, the promise is rejected with the
claimed message, but the ticket is NOT removed from the queue: the handler
searches `connectionQueue` for the raw promise resolver while the queue
holds the wrapper closure, so `indexOf` returns -1 and the splice never
runs. -/
theorem C2_timeout_leaves_ticket_queued :
    (waitTimeoutFire queuedPool 5).1.rejectMessage =
      "Timeout waiting for available connection" ∧
    (waitTimeoutFire queuedPool 5).1.removedFromQueue = false ∧
    (waitTimeoutFire queuedPool 5).2.queue = [JsFun.wrapper 5] := by
  refine ⟨rfl, by decide, by decide⟩

/-- C7: for every pool state and every disconnect-outcome assignment,
`destroy()` (a total function in this embedding, as the source catches each
disconnect failure and `Promise.all` over non-throwing tasks never rejects)
invokes every queued entry with null — each queued wrapper thereby rejecting
with the pool-closing `OdooConnectionError` — attempts `disconnect()` on
every tracked connection (available then active), records failed disconnects
while continuing teardown, and leaves zero tracked connections and an empty
queue; in particular this holds for an already-empty or already-destroyed
pool. -/
theorem C7_destroy_spec (s : PoolState) (dis : Nat → Bool) :
    (destroy s dis).2.available = [] ∧
    (destroy s dis).2.active = [] ∧
    (destroy s dis).2.queue = [] ∧
    (destroy s dis).2.total = 0 ∧
    (destroy s dis).1.invokedEntries = s.queue ∧
    (∀ t, JsFun.wrapper t ∈ s.queue →
        invokeWithNull (JsFun.wrapper t) = "Connection pool is closing") ∧
    (destroy s dis).1.disconnectAttempts = s.available ++ s.active ∧
    (destroy s dis).1.failedDisconnects =
      (s.available ++ s.active).filter (fun c => !(dis c)) ∧
    (destroy s dis).2.destroyed =
      s.destroyed + (s.available ++ s.active).countP (fun c => dis c) := by
  refine ⟨rfl, rfl, rfl, rfl, rfl, fun t _ => rfl, rfl, rfl, rfl⟩

/-- C8: the static singleton accessor.  `getInstance` is a synchronous
(non-async) function, so the configuration error on a first call without
configuration is thrown synchronously; the first call with a configuration
installs the fresh instance; every later call returns the installed
instance and ignores whatever configuration argument it is given. -/
theorem C8_getInstance_singleton :
    (∀ f, getInstance none none f =
      (Except.error
        "Config is required for first initialization of OdooConnectionPool",
       none)) ∧
    (∀ cfg f, getInstance none (some cfg) f = (Except.ok f, some f)) ∧
    (∀ p cfg f, getInstance (some p) cfg f = (Except.ok p, some p)) := by
  exact ⟨fun _ => rfl, fun _ _ => rfl, fun p cfg f => by cases cfg <;> rfl⟩

/-- C9: every `acquire()` call increments the `acquired` counter exactly
once, on all four paths (reuse, creation, creation failure, queuing), and
increments `queuedRequests` exactly on the queued path. -/
theorem C9_acquire_stats (s : PoolState) (connectOk : Bool) (t : Nat) :
    (acquire s connectOk t).2.acquired = s.acquired + 1 ∧
    (acquire s connectOk t).2.queuedRequests =
      s.queuedRequests +
        (if (acquire s connectOk t).1.isQueued then 1 else 0) := by
  unfold acquire _createConnection
  cases s.available with
  | cons c rest => simp [AcquireOutcome.isQueued]
  | nil =>
      by_cases hmax : s.active.length < s.maxConnections
      · cases connectOk <;> simp [hmax, AcquireOutcome.isQueued]
      · simp [hmax, AcquireOutcome.isQueued]

/-- C10: releasing a connection that is not tracked in `activeConnections`
returns through the warning path without throwing, increments the
`released` counter by one, and leaves every other component of the pool
state unchanged. -/
theorem C10_release_unknown_frame (s : PoolState) (c : Nat)
    (hc : c ∉ s.active) :
    release s c = (ReleaseSignal.unknownConn,
                   { s with released := s.released + 1 }) := by
  simp [release, hc]

/-- C3 fails on the code: along the trace `evictTrace0 → evictTrace3` a
timer for connection 11 is armed at `evictTrace2` (available size 2 exceeds
the floor 1); when it fires at `evictTrace3` the available list is `[11]` of
size 1, which does NOT exceed `minConnections = 1`, yet the connection is
evicted, leaving the available list below the floor. -/
theorem C3_counterexample_eviction_below_floor :
    (release evictTrace1 11).1 = ReleaseSignal.pooled true ∧
    evictTrace3.available = [11] ∧
    evictTrace3.minConnections = 1 ∧
    ¬ evictTrace3.minConnections < evictTrace3.available.length ∧
    (idleTimerFire evictTrace3 11).1 = true ∧
    (idleTimerFire evictTrace3 11).2.available = [] ∧
    (idleTimerFire evictTrace3 11).2.available.length <
      evictTrace3.minConnections := by
  decide

/-- C3 amended: the size-exceeds-minConnections test is made once, at
scheduling time — a release to the available list arms the idle timer iff
the available size after the push exceeds the floor — while the firing timer
checks only that the connection is still in the available list and evicts
whenever it is, with no size recheck (so an eviction can drop the available
list below `minConnections`). -/
theorem C3_idle_eviction_checks (s : PoolState) (c : Nat)
    (hc : c ∈ s.active) (hq : s.queue = []) :
    (release s c).1 =
      ReleaseSignal.pooled
        (decide (s.minConnections < s.available.length + 1)) ∧
    (idleTimerFire s c).1 = decide (c ∈ s.available) ∧
    (idleTimerFire s c).2.available =
      (if c ∈ s.available then s.available.erase c else s.available) := by
  refine ⟨?_, ?_, ?_⟩
  · simp [release, setDelete, hc, hq]
  · by_cases h : c ∈ s.available <;> simp [idleTimerFire, h]
  · by_cases h : c ∈ s.available <;> simp [idleTimerFire, h]

/-- Witness for C3 at a concrete input. -/
theorem C3_idle_eviction_checks_witness :
    ((10 : Nat) ∈ evictTrace0.active ∧ evictTrace0.queue = []) ∧
    ((release evictTrace0 10).1 =
      ReleaseSignal.pooled
        (decide (evictTrace0.minConnections <
          evictTrace0.available.length + 1)) ∧
     (idleTimerFire evictTrace0 10).1 =
       decide ((10 : Nat) ∈ evictTrace0.available) ∧
     (idleTimerFire evictTrace0 10).2.available =
       (if (10 : Nat) ∈ evictTrace0.available then
          evictTrace0.available.erase 10
        else evictTrace0.available)) :=
  ⟨⟨by decide, by decide⟩,
   C3_idle_eviction_checks evictTrace0 10 (by decide) (by decide)⟩

/-- C4 fails on the code in both directions.  A call served by the creation
path releases its connection, yet the available-plus-active total changes
across the call (from 0 to 2 on an empty pool: the new connection was left
in the available list by `_createConnection` and is pushed there a second
time by the release).  And from the reachable double-registration state
after one `acquire()` on the empty pool — available `[0]`, active `[0]` — a
second call, served from the available list, changes the total from 2 to 1:
the `Set.add` of the shifted connection is a no-op because it is already
active, so the release deletes it from the active set and pushes a single
copy back. -/
theorem C4_counterexample_total_changes :
    (withConnection tinyPool true 99 (fun _ => FnOutcome.err 7)).1 =
      WithResult.err 7 ∧
    tinyPool.total = 0 ∧
    (withConnection tinyPool true 99 (fun _ => FnOutcome.err 7)).2.total
      = 2 ∧
    (acquire tinyPool true 0).2.available = [0] ∧
    (acquire tinyPool true 0).2.active = [0] ∧
    (acquire tinyPool true 0).2.total = 2 ∧
    (withConnection (acquire tinyPool true 0).2 true 98
      (fun _ => FnOutcome.err 7)).1 = WithResult.err 7 ∧
    (withConnection (acquire tinyPool true 0).2 true 98
      (fun _ => FnOutcome.err 7)).2.total = 1 := by
  decide

/-- C4 amended: whether `fn` returns normally or throws, the acquired
connection is released (the `released` counter advances and the pool state
reflects the completed release) before the value or exception of `fn`
propagates; and the available-plus-active total is unchanged across the
call exactly in the case the counterexample leaves: the acquisition is
served from the available list and the head connection is not
simultaneously tracked as active (the double-registration state of the C1
bug is the state the latter condition excludes). -/
theorem C4_withConnection_reuse_no_leak (s : PoolState) (c : Nat)
    (rest : List Nat) (connectOk : Bool) (t : Nat) (fn : Nat → FnOutcome)
    (hav : s.available = c :: rest) (hc : c ∉ s.active) :
    (withConnection s connectOk t fn).2.total = s.total ∧
    (withConnection s connectOk t fn).2.released = s.released + 1 ∧
    (withConnection s connectOk t fn).1 =
      (match fn c with
       | FnOutcome.ok v => WithResult.ok v
       | FnOutcome.err e => WithResult.err e) := by
  have hacq : acquire s connectOk t
      = (AcquireOutcome.reused c,
         { s with acquired := s.acquired + 1
                , available := rest
                , active := s.active ++ [c] }) := by
    simp [acquire, hav, setAdd, hc]
  have herase : (s.active ++ [c]).erase c = s.active := by
    rw [List.erase_append_right _ hc, List.erase_cons_head, List.append_nil]
  refine ⟨?_, ?_, ?_⟩ <;>
    simp only [withConnection, hacq] <;>
      cases hq : s.queue <;>
        cases hfn : fn c <;>
          simp [release, setDelete, setAdd, herase, hq, hfn,
                PoolState.total, hav, hc] <;>
            omega

/-- Witness for C4 at a concrete input. -/
theorem C4_withConnection_reuse_no_leak_witness :
    (reusePool.available = 3 :: [] ∧ (3 : Nat) ∉ reusePool.active) ∧
    ((withConnection reusePool true 0 (fun _ => FnOutcome.err 9)).2.total
       = reusePool.total ∧
     (withConnection reusePool true 0 (fun _ => FnOutcome.err 9)).2.released
       = reusePool.released + 1 ∧
     (withConnection reusePool true 0 (fun _ => FnOutcome.err 9)).1 =
       (match (fun _ => FnOutcome.err 9 : Nat → FnOutcome) 3 with
        | FnOutcome.ok v => WithResult.ok v
        | FnOutcome.err e => WithResult.err e)) :=
  ⟨⟨by decide, by decide⟩,
   C4_withConnection_reuse_no_leak reusePool 3 [] true 0
     (fun _ => FnOutcome.err 9) (by decide) (by decide)⟩

/-- C5: releasing a tracked active connection while the wait queue is
non-empty shifts the queue head — the first-enqueued, hence oldest, ticket,
since a queued `acquire()` appends its wrapper ticket at the tail — and
hands the connection to it: the connection stays in the active set (same
members, same size), the available list is untouched, and the remaining
queue is the old tail. -/
theorem C5_release_fifo_handoff (s : PoolState) (c : Nat) (f : JsFun)
    (qrest : List JsFun) (hc : c ∈ s.active) (hnd : s.active.Nodup)
    (hq : s.queue = f :: qrest) :
    (release s c).1 = ReleaseSignal.handed f c ∧
    (release s c).2.queue = qrest ∧
    (release s c).2.available = s.available ∧
    c ∈ (release s c).2.active ∧
    (∀ x, x ∈ (release s c).2.active ↔ x ∈ s.active) ∧
    (release s c).2.active.length = s.active.length ∧
    (∀ t2 ok2, (acquire s ok2 t2).1.isQueued = true →
        (acquire s ok2 t2).2.queue = s.queue ++ [JsFun.wrapper t2]) := by
  have hne : c ∉ s.active.erase c := by
    simp [List.Nodup.mem_erase_iff hnd]
  have hrel : release s c
      = (ReleaseSignal.handed f c,
         { s with released := s.released + 1
                , queue := qrest
                , active := s.active.erase c ++ [c] }) := by
    simp [release, setDelete, setAdd, hc, hq, hne]
  have hlen : (s.active.erase c).length + 1 = s.active.length := by
    have := List.length_erase_of_mem hc
    have hpos : 0 < s.active.length := List.length_pos.mpr
      (fun h => by simp [h] at hc)
    omega
  refine ⟨by simp [hrel], by simp [hrel], by simp [hrel], ?_, ?_, ?_, ?_⟩
  · simp [hrel]
  · intro x
    simp only [hrel, List.mem_append, List.mem_singleton,
               List.Nodup.mem_erase_iff hnd]
    constructor
    · rintro (⟨_, hx⟩ | rfl)
      · exact hx
      · exact hc
    · intro hx
      by_cases hxc : x = c
      · exact Or.inr hxc
      · exact Or.inl ⟨hxc, hx⟩
  · simp [hrel, hlen]
  · intro t2 ok2 hqd
    unfold acquire _createConnection at hqd ⊢
    cases hav : s.available with
    | cons a l => simp [hav, AcquireOutcome.isQueued] at hqd
    | nil =>
        by_cases hmax : s.active.length < s.maxConnections
        · cases ok2 <;> simp [hav, hmax, AcquireOutcome.isQueued] at hqd
        · simp [hav, hmax, AcquireOutcome.isQueued]

/-- Witness for C5 at a concrete input. -/
theorem C5_release_fifo_handoff_witness :
    ((4 : Nat) ∈ handoffPool.active ∧ handoffPool.active.Nodup ∧
      handoffPool.queue = [JsFun.wrapper 8]) ∧
    ((release handoffPool 4).1 = ReleaseSignal.handed (JsFun.wrapper 8) 4 ∧
     (release handoffPool 4).2.queue = [] ∧
     (release handoffPool 4).2.available = handoffPool.available ∧
     (4 : Nat) ∈ (release handoffPool 4).2.active ∧
     (∀ x, x ∈ (release handoffPool 4).2.active ↔ x ∈ handoffPool.active) ∧
     (release handoffPool 4).2.active.length = handoffPool.active.length ∧
     (∀ t2 ok2, (acquire handoffPool ok2 t2).1.isQueued = true →
        (acquire handoffPool ok2 t2).2.queue =
          handoffPool.queue ++ [JsFun.wrapper t2])) :=
  ⟨⟨by decide, by decide, by decide⟩,
   C5_release_fifo_handoff handoffPool 4 (JsFun.wrapper 8) []
     (by decide) (by decide) (by decide)⟩

/-- Witness for C10 at a concrete input. -/
theorem C10_release_unknown_frame_witness :
    (7 : Nat) ∉ tinyPool.active ∧
    release tinyPool 7 = (ReleaseSignal.unknownConn,
                          { tinyPool with released := tinyPool.released + 1 }) :=
  ⟨by decide, C10_release_unknown_frame tinyPool 7 (by decide)⟩

/-- Unfolding of the retry loop on a successful attempt. -/
theorem authGo_success (d b : Nat) (auth : Nat → AuthStep) (m a uid : Nat)
    (hstep : auth a = AuthStep.success uid) :
    authGo d b auth m a = ⟨AuthResult.ok uid, 1, []⟩ := by
  rw [authGo, hstep]

/-- Unfolding of the retry loop on a failed final attempt. -/
theorem authGo_failure_last (d b : Nat) (auth : Nat → AuthStep) (m a e : Nat)
    (hstep : auth a = AuthStep.failure e) (hm : ¬ a < m) :
    authGo d b auth m a = ⟨AuthResult.failed (some e), 1, []⟩ := by
  rw [authGo, hstep]
  simp [hm]

/-- Unfolding of the retry loop on a failed attempt with attempts left:
sleep the backoff delay of this attempt, then continue. -/
theorem authGo_failure_step (d b : Nat) (auth : Nat → AuthStep) (m a e : Nat)
    (hstep : auth a = AuthStep.failure e) (hm : a < m) :
    authGo d b auth m a =
      ⟨(authGo d b auth m (a + 1)).result,
       (authGo d b auth m (a + 1)).attempts + 1,
       d * b ^ (a - 1) :: (authGo d b auth m (a + 1)).sleeps⟩ := by
  rw [authGo, hstep]
  simp [hm]


/-- Characterization of the retry loop from any starting attempt `a` with
`1 <= a <= m`: at least one and at most `m - a + 1` further attempts are
made; the sleeps are exactly the exponential-backoff delays of the failed
attempts other than the last; a returned uid comes from the first successful
attempt (all earlier ones failed); a thrown wrapped error means the loop
reached attempt `m` and wraps the error of that last attempt, every attempt
having failed; and `lastError` is never the undefined placeholder. -/
theorem authGo_characterization (d b : Nat) (auth : Nat → AuthStep) (m : Nat) :
    ∀ n a, m - a = n → 1 ≤ a → a ≤ m →
      1 ≤ (authGo d b auth m a).attempts ∧
      a + (authGo d b auth m a).attempts - 1 ≤ m ∧
      (authGo d b auth m a).sleeps =
        (List.range ((authGo d b auth m a).attempts - 1)).map
          (fun i => d * b ^ (a - 1 + i)) ∧
      (∀ uid, (authGo d b auth m a).result = AuthResult.ok uid →
          auth (a + (authGo d b auth m a).attempts - 1) = AuthStep.success uid ∧
          ∀ k, a ≤ k → k < a + (authGo d b auth m a).attempts - 1 →
            ∃ e, auth k = AuthStep.failure e) ∧
      (∀ e, (authGo d b auth m a).result = AuthResult.failed (some e) →
          a + (authGo d b auth m a).attempts - 1 = m ∧
          auth m = AuthStep.failure e ∧
          ∀ k, a ≤ k → k ≤ m → ∃ e2, auth k = AuthStep.failure e2) ∧
      (authGo d b auth m a).result ≠ AuthResult.failed none := by
  intro n
  induction n with
  | zero =>
      intro a hna h1 ham
      have hma : ¬ a < m := by omega
      cases hstep : auth a with
      | success uid =>
          rw [authGo_success d b auth m a uid hstep]
          refine ⟨le_refl 1, show a + 1 - 1 ≤ m by omega, by simp, ?_, ?_,
                  by simp⟩
          · intro uid2 hres
            have huid : uid = uid2 := by injection hres
            subst huid
            refine ⟨show auth (a + 1 - 1) = AuthStep.success uid by
                      simpa using hstep, ?_⟩
            intro k hk1 hk2
            have hk3 : k < a + 1 - 1 := hk2
            omega
          · intro e hres
            simp at hres
      | failure e =>
          rw [authGo_failure_last d b auth m a e hstep hma]
          refine ⟨le_refl 1, show a + 1 - 1 ≤ m by omega, by simp, ?_, ?_,
                  by simp⟩
          · intro uid hres
            simp at hres
          · intro e2 hres
            have he2 : e = e2 := by
              have h3 : AuthResult.failed (some e)
                  = AuthResult.failed (some e2) := hres
              have h4 : (some e : Option Nat) = some e2 := by injection h3
              injection h4
            subst he2
            have ham2 : a = m := by omega
            refine ⟨show a + 1 - 1 = m by omega, by rw [← ham2]; exact hstep,
                    ?_⟩
            intro k hk1 hk2
            have hk3 : k = a := by omega
            subst hk3
            exact ⟨e, hstep⟩
  | succ n ih =>
      intro a hna h1 ham
      have hma : a < m := by omega
      cases hstep : auth a with
      | success uid =>
          rw [authGo_success d b auth m a uid hstep]
          refine ⟨le_refl 1, show a + 1 - 1 ≤ m by omega, by simp, ?_, ?_,
                  by simp⟩
          · intro uid2 hres
            have huid : uid = uid2 := by injection hres
            subst huid
            refine ⟨show auth (a + 1 - 1) = AuthStep.success uid by
                      simpa using hstep, ?_⟩
            intro k hk1 hk2
            have hk3 : k < a + 1 - 1 := hk2
            omega
          · intro e hres
            simp at hres
      | failure e =>
          rw [authGo_failure_step d b auth m a e hstep hma]
          obtain ⟨ih1, ih2, ih3, ih4, ih5, ih6⟩ :=
            ih (a + 1) (by omega) (by omega) (by omega)
          refine ⟨?_, ?_, ?_, ?_, ?_, ?_⟩
          · show 1 ≤ (authGo d b auth m (a + 1)).attempts + 1
            omega
          · show a + ((authGo d b auth m (a + 1)).attempts + 1) - 1 ≤ m
            omega
          · show d * b ^ (a - 1) :: (authGo d b auth m (a + 1)).sleeps
              = (List.range ((authGo d b auth m (a + 1)).attempts + 1 - 1)).map
                  (fun i => d * b ^ (a - 1 + i))
            obtain ⟨q, hq⟩ : ∃ q, (authGo d b auth m (a + 1)).attempts = q + 1 :=
              ⟨(authGo d b auth m (a + 1)).attempts - 1, by omega⟩
            rw [hq] at ih3 ⊢
            simp only [Nat.add_sub_cancel] at ih3 ⊢
            have hmaps : (List.range (q + 1)).map (fun i => d * b ^ (a - 1 + i))
                = d * b ^ (a - 1) ::
                    (List.range q).map (fun i => d * b ^ (a + 1 - 1 + i)) := by
              rw [List.range_succ_eq_map, List.map_cons, List.map_map]
              refine congrArg₂ _ ?_ ?_
              · show d * b ^ (a - 1 + 0) = d * b ^ (a - 1)
                rw [Nat.add_zero]
              · refine List.map_congr_left ?_
                intro i _
                show d * b ^ (a - 1 + Nat.succ i) = d * b ^ (a + 1 - 1 + i)
                have harith : a - 1 + Nat.succ i = a + 1 - 1 + i := by omega
                rw [harith]
            rw [hmaps, ih3]
            simp only [Nat.add_sub_cancel]
          · intro uid hres
            have hres2 : (authGo d b auth m (a + 1)).result
                = AuthResult.ok uid := hres
            obtain ⟨hsucc, hall⟩ := ih4 uid hres2
            constructor
            · show auth (a + ((authGo d b auth m (a + 1)).attempts + 1) - 1)
                = AuthStep.success uid
              have hidx : a + ((authGo d b auth m (a + 1)).attempts + 1) - 1
                  = (a + 1) + (authGo d b auth m (a + 1)).attempts - 1 := by
                omega
              rw [hidx]
              exact hsucc
            · intro k hk1 hk2
              have hk3 : k < a + ((authGo d b auth m (a + 1)).attempts + 1) - 1 :=
                hk2
              by_cases hka : k = a
              · subst hka
                exact ⟨e, hstep⟩
              · exact hall k (by omega) (by omega)
          · intro e2 hres
            have hres2 : (authGo d b auth m (a + 1)).result
                = AuthResult.failed (some e2) := hres
            obtain ⟨hidx, hlast, hall⟩ := ih5 e2 hres2
            refine ⟨?_, hlast, ?_⟩
            · show a + ((authGo d b auth m (a + 1)).attempts + 1) - 1 = m
              omega
            · intro k hk1 hk2
              by_cases hka : k = a
              · subst hka
                exact ⟨e, hstep⟩
              · exact hall k (by omega) hk2
          · show (authGo d b auth m (a + 1)).result ≠ AuthResult.failed none
            exact ih6

/-- C6: `_authenticateWithRetry` with retry policy `(maxAttempts, delayMs,
backoffMultiplier)`, `maxAttempts >= 1`, makes between 1 and `maxAttempts`
attempts; after failed attempt `k < maxAttempts` it sleeps
`delayMs * backoffMultiplier ^ (k - 1)` (the sleeps list has one entry per
non-final attempt, so there is no sleep after the final one); it returns the
user id of the first successful attempt; and when every attempt fails it
throws a `ConnectionError` wrapping the error of the last attempt. -/
theorem C6_auth_retry_spec (maxAttempts delayMs backoff : Nat)
    (auth : Nat → AuthStep) (hm : 1 ≤ maxAttempts) :
    1 ≤ (authenticateWithRetry maxAttempts delayMs backoff auth).attempts ∧
    (authenticateWithRetry maxAttempts delayMs backoff auth).attempts
      ≤ maxAttempts ∧
    (authenticateWithRetry maxAttempts delayMs backoff auth).sleeps =
      (List.range
        ((authenticateWithRetry maxAttempts delayMs backoff auth).attempts
          - 1)).map (fun i => delayMs * backoff ^ i) ∧
    (∀ uid,
      (authenticateWithRetry maxAttempts delayMs backoff auth).result
          = AuthResult.ok uid →
        auth (authenticateWithRetry maxAttempts delayMs backoff auth).attempts
            = AuthStep.success uid ∧
        ∀ k, 1 ≤ k →
          k < (authenticateWithRetry maxAttempts delayMs backoff auth).attempts →
            ∃ e, auth k = AuthStep.failure e) ∧
    (∀ e,
      (authenticateWithRetry maxAttempts delayMs backoff auth).result
          = AuthResult.failed (some e) →
        (authenticateWithRetry maxAttempts delayMs backoff auth).attempts
            = maxAttempts ∧
        auth maxAttempts = AuthStep.failure e ∧
        ∀ k, 1 ≤ k → k ≤ maxAttempts → ∃ e2, auth k = AuthStep.failure e2) ∧
    (authenticateWithRetry maxAttempts delayMs backoff auth).result
      ≠ AuthResult.failed none := by
  have hun : authenticateWithRetry maxAttempts delayMs backoff auth
      = authGo delayMs backoff auth maxAttempts 1 := by
    simp [authenticateWithRetry, hm]
  obtain ⟨h1, h2, h3, h4, h5, h6⟩ :=
    authGo_characterization delayMs backoff auth maxAttempts
      (maxAttempts - 1) 1 rfl (le_refl 1) hm
  rw [hun]
  refine ⟨h1, by omega, ?_, ?_, ?_, h6⟩
  · rw [h3]
    simp only [Nat.sub_self, Nat.zero_add]
  · intro uid hres
    obtain ⟨hs, hall⟩ := h4 uid hres
    have hs2 : auth (authGo delayMs backoff auth maxAttempts 1).attempts
        = AuthStep.success uid := by
      have harith : 1 + (authGo delayMs backoff auth maxAttempts 1).attempts - 1
          = (authGo delayMs backoff auth maxAttempts 1).attempts := by omega
      rw [harith] at hs
      exact hs
    refine ⟨hs2, ?_⟩
    intro k hk1 hk2
    exact hall k hk1 (by omega)
  · intro e hres
    obtain ⟨hi, hl, hall⟩ := h5 e hres
    exact ⟨by omega, hl, hall⟩

/-- Witness for C6 at the retry policy of the testable-properties section:
three attempts, base delay 100, multiplier 2, failing twice then
succeeding. -/
theorem C6_auth_retry_spec_witness :
    1 ≤ (3 : Nat) ∧
    (1 ≤ (authenticateWithRetry 3 100 2 authTwiceThenOk).attempts ∧
     (authenticateWithRetry 3 100 2 authTwiceThenOk).attempts ≤ 3 ∧
     (authenticateWithRetry 3 100 2 authTwiceThenOk).sleeps =
       (List.range
         ((authenticateWithRetry 3 100 2 authTwiceThenOk).attempts - 1)).map
           (fun i => 100 * 2 ^ i) ∧
     (∀ uid,
       (authenticateWithRetry 3 100 2 authTwiceThenOk).result
           = AuthResult.ok uid →
         authTwiceThenOk (authenticateWithRetry 3 100 2 authTwiceThenOk).attempts
             = AuthStep.success uid ∧
         ∀ k, 1 ≤ k →
           k < (authenticateWithRetry 3 100 2 authTwiceThenOk).attempts →
             ∃ e, authTwiceThenOk k = AuthStep.failure e) ∧
     (∀ e,
       (authenticateWithRetry 3 100 2 authTwiceThenOk).result
           = AuthResult.failed (some e) →
         (authenticateWithRetry 3 100 2 authTwiceThenOk).attempts = 3 ∧
         authTwiceThenOk 3 = AuthStep.failure e ∧
         ∀ k, 1 ≤ k → k ≤ 3 → ∃ e2, authTwiceThenOk k = AuthStep.failure e2) ∧
     (authenticateWithRetry 3 100 2 authTwiceThenOk).result
       ≠ AuthResult.failed none) :=
  ⟨by decide, C6_auth_retry_spec 3 100 2 authTwiceThenOk (by decide)⟩

end OdooPool
